import Mathlib

/-!
Shallow embedding of the sidekick provisioning core: the registry data model
and its upsert/lookup operations (utils/config.go), the legacy-config
migration and context-switch commands (cmd/config), and the init workflow
(cmd/initialize/initialize.go) with its six stages and progress-event stream.
Remote effects (SSH login, remote command output, local key generation,
file writes) are passed in as explicit oracle values, so every stage and the
worker itself become pure functions of those outcomes, mirroring the Go
control flow statement by statement.
-/

/-- The persisted host identity (utils.SidekickServer): name, address,
certificate email, detected distro and platform, and the age keypair. -/
structure SidekickServer where
  Name : String
  Address : String
  CertEmail : String
  Distro : String
  PlatformId : String
  PublicKey : String
  SecretKey : String
deriving Repr, DecidableEq

/-- A named pointer to a server by name (utils.SidekickContext). -/
structure SidekickContext where
  Name : String
  Server : String
deriving Repr, DecidableEq

/-- The root registry (utils.SidekickConfig): schema version, servers,
contexts and the current-context name. -/
structure SidekickConfig where
  Version : String
  Servers : List SidekickServer
  Contexts : List SidekickContext
  CurrentContext : String
deriving Repr, DecidableEq

/-- Embedding of SidekickConfig.FindServer: first server with the given
name, or an error. -/
def SidekickConfig.FindServer (c : SidekickConfig) (name : String) :
    Except String SidekickServer :=
  match c.Servers.find? (fun s => s.Name == name) with
  | some s => .ok s
  | none => .error ("server " ++ name ++ " not found")

/-- Embedding of SidekickConfig.FindContext: first context with the given
name, or an error. -/
def SidekickConfig.FindContext (c : SidekickConfig) (name : String) :
    Except String SidekickContext :=
  match c.Contexts.find? (fun ctx => ctx.Name == name) with
  | some ctx => .ok ctx
  | none => .error ("context " ++ name ++ " not found")

/-- Embedding of SidekickConfig.AddOrReplaceContext: the Go loop finds the
first index whose Name matches; no match appends, a match overwrites at
that index. -/
def SidekickConfig.AddOrReplaceContext (c : SidekickConfig)
    (ctx : SidekickContext) : SidekickConfig :=
  match c.Contexts.findIdx? (fun elem => elem.Name == ctx.Name) with
  | none => { c with Contexts := c.Contexts ++ [ctx] }
  | some idx => { c with Contexts := c.Contexts.set idx ctx }

/-- Embedding of SidekickConfig.AddOrReplaceServer: same shape as
AddOrReplaceContext, over the server collection. -/
def SidekickConfig.AddOrReplaceServer (c : SidekickConfig)
    (s : SidekickServer) : SidekickConfig :=
  match c.Servers.findIdx? (fun elem => elem.Name == s.Name) with
  | none => { c with Servers := c.Servers ++ [s] }
  | some idx => { c with Servers := c.Servers.set idx s }

/-- Embedding of the pure part of the migrate command (cmd/config
migrateCmd): rename the legacy single-host document to "default" and wrap
it in a fresh version-1 registry with a "default" context. -/
def migrateConfig (legacy : SidekickServer) : SidekickConfig :=
  let serverConfig := { legacy with Name := "default" }
  let defaultContext : SidekickContext := { Name := "default", Server := "default" }
  { Version := "1"
    Servers := [serverConfig]
    Contexts := [defaultContext]
    CurrentContext := defaultContext.Name }

/-- Observable file/stream effects of the config commands. -/
inductive ConfigEffect where
  | readLegacyFile (path : String)
  | printStdout (cfg : SidekickConfig)
  | writeFile (path : String) (cfg : SidekickConfig)
deriving Repr, DecidableEq

/-- Effect trace of migrateCmd on a readable legacy document: it reads the
config path and prints the converted registry; it never writes a file. -/
def migrateCmdEffects (path : String) (legacy : SidekickServer) :
    List ConfigEffect :=
  [.readLegacyFile path, .printStdout (migrateConfig legacy)]

/-- Embedding of the config use subcommand (cmd/config useContextCmd): set
CurrentContext to the argument and call Save, DISCARDING its result (the Go
source ignores the error return of config.Save). Returns the process exit
code and the config value handed to Save. -/
def useContextCmd (config : SidekickConfig) (contextName : String)
    (save : SidekickConfig → Except String Unit) : Nat × SidekickConfig :=
  let config := { config with CurrentContext := contextName }
  let _ := save config
  (0, config)

/-- Embedding of the identity loop in stage2Login: try each user in order
with utils.Login (the login oracle), returning the first client that
authenticates together with the user name. -/
def tryUsers {Client : Type} (login : String → Except String Client) :
    List String → Except String (Client × String)
  | [] => .error "unable to establish SSH connection"
  | user :: rest =>
    match login user with
    | .ok client => .ok (client, user)
    | .error _ => tryUsers login rest

/-- Embedding of stage2Login: the fixed identity preference list is
root first, then sidekick. -/
def stage2Login {Client : Type} (login : String → Except String Client) :
    Except String (Client × String) :=
  tryUsers login ["root", "sidekick"]

/-- Embedding of stage3UserSetup. `idProbe` is the outcome of running
`id -u sidekick` remotely (error if the command could not run, otherwise
its trimmed output); `userStageRun` is the outcome of running the
user-setup command batch. Returns whether the mutating batch was invoked,
and the stage result. A probe error or empty output means the sidekick
user is taken to be absent; the batch runs only then and only as root. -/
def stage3UserSetup (idProbe : Except String String)
    (userStageRun : Except String Unit) (loggedInUser : String) :
    Bool × Except String Unit :=
  let hasSidekickUser :=
    match idProbe with
    | .error _ => false
    | .ok output => output != ""
  if !hasSidekickUser && loggedInUser == "root" then
    match userStageRun with
    | .error e => (true, .error e)
    | .ok _ => (true, .ok ())
  else (false, .ok ())

/-- Embedding of stage4VPSSetup, acting on the server record the Go code
mutates through a pointer. `distro` and `arch` are the outputs of the two
read-only probes (their error channels are discarded in the source);
`setupCmds` is the outcome of the generic setup batch; `keygen` is the raw
stdout of a local age-keygen run. Key parsing follows the source: split on
newlines, secret from line index 2, public from line index 1 after a colon
with spaces removed; the keygen branch runs only when either key field is
empty. Returns the (possibly) updated server and the stage result. -/
def stage4VPSSetup (distro arch : String) (setupCmds : Except String Unit)
    (keygen : Except String String) (server : SidekickServer) :
    SidekickServer × Except String Unit :=
  let server := { server with Distro := distro }
  let server :=
    if arch == "x86_64" then { server with PlatformId := "linux/amd64" } else server
  let server :=
    if arch == "aarch64" then { server with PlatformId := "linux/arm64" } else server
  match setupCmds with
  | .error e => (server, .error e)
  | .ok _ =>
    if server.PublicKey == "" || server.SecretKey == "" then
      match keygen with
      | .error e => (server, .error e)
      | .ok output =>
        let lines := output.splitOn "\n"
        let server :=
          if lines.length ≥ 3 then
            let server := { server with SecretKey := lines.getD 2 "" }
            let parts := (lines.getD 1 "").splitOn ":"
            if parts.length > 1 then
              { server with PublicKey := (parts.getD 1 "").replace " " "" }
            else server
          else server
        (server, .ok ())
    else (server, .ok ())

/-- Embedding of stage5Docker. `dockerProbe` is the outcome of the remote
docker availability check (output "1" when docker and compose are
callable); `dockerCmds` is the outcome of the docker install batch.
Returns whether the mutating batch was invoked, and the stage result. -/
def stage5Docker (dockerProbe : Except String String)
    (dockerCmds : Except String Unit) : Bool × Except String Unit :=
  let dockerReady :=
    match dockerProbe with
    | .error _ => false
    | .ok output => output == "1"
  if !dockerReady then
    match dockerCmds with
    | .error e => (true, .error e)
    | .ok _ => (true, .ok ())
  else (false, .ok ())

/-- Embedding of stage6Traefik. `traefikProbe` is the outcome of the remote
directory-existence check (output "1" when the traefik directory exists);
`traefikCmds` is the outcome of the traefik install batch. Returns whether
the mutating batch was invoked, and the stage result. -/
def stage6Traefik (traefikProbe : Except String String)
    (traefikCmds : Except String Unit) : Bool × Except String Unit :=
  let traefikSetup :=
    match traefikProbe with
    | .error _ => false
    | .ok output => output == "1"
  if !traefikSetup then
    match traefikCmds with
    | .error e => (true, .error e)
    | .ok _ => (true, .ok ())
  else (false, .ok ())

/-- Oracle outcomes for one init workflow run: the SSH login oracle keyed by
user name, the remote probe outputs, the outcomes of the mutating command
batches, the local keygen output, and the registry save outcome. -/
structure InitEnv (Client : Type) where
  login : String → Except String Client
  stage1 : Except String Unit
  idProbe : Except String String
  userStageRun : Except String Unit
  distroProbe : String
  archProbe : String
  setupCmds : Except String Unit
  keygen : Except String String
  dockerProbe : Except String String
  dockerCmds : Except String Unit
  traefikProbe : Except String String
  traefikCmds : Except String Unit
  save : SidekickConfig → Except String Unit

/-- Progress events sent from the init worker goroutine to the TUI:
NextStageMsg, ErrorMsg and AllDoneMsg of the render package. -/
inductive ProgressEvent where
  | advance
  | errorMsg (msg : String)
  | allDone (msg : String)
deriving Repr, DecidableEq

/-- The registry produced by the success epilogue of the worker (lines 282
to 286): upsert the server, upsert a same-named context pointing at it,
and make that context current. -/
def finalRegistry (config : SidekickConfig) (server4 : SidekickServer) :
    SidekickConfig :=
  let config1 := config.AddOrReplaceServer server4
  let newContext : SidekickContext := { Name := server4.Name, Server := server4.Name }
  let config2 := config1.AddOrReplaceContext newContext
  { config2 with CurrentContext := newContext.Name }

/-- Embedding of the background worker goroutine of InitCmd.Run
(initialize.go lines 234 to 293): run the six stages in order, send a
NextStageMsg after each of stages 1 to 5 (the source sends none after
stage 6), abort with a single ErrorMsg on the first failure, and on full
success upsert the server and a same-named context, set CurrentContext,
save, and send AllDoneMsg. Returns the event list in send order and the
registry passed to a successful save (none when the run aborted). The
elapsed-time suffix of the final message is abstracted away. -/
def initWorker {Client : Type} (env : InitEnv Client)
    (config : SidekickConfig) (sidekickServer : SidekickServer) :
    List ProgressEvent × Option SidekickConfig :=
  match env.stage1 with
  | .error e => ([.errorMsg ("Local requirements check failed: " ++ e)], none)
  | .ok _ =>
  match stage2Login env.login with
  | .error e => ([.advance, .errorMsg ("Login failed: " ++ e)], none)
  | .ok (_, loggedInUser) =>
  match (stage3UserSetup env.idProbe env.userStageRun loggedInUser).2 with
  | .error e => ([.advance, .advance, .errorMsg ("User setup failed: " ++ e)], none)
  | .ok _ =>
  match env.login "sidekick" with
  | .error e =>
    ([.advance, .advance, .errorMsg ("Failed to login as sidekick: " ++ e)], none)
  | .ok _ =>
  match stage4VPSSetup env.distroProbe env.archProbe env.setupCmds env.keygen
      sidekickServer with
  | (_, .error e) =>
    ([.advance, .advance, .advance, .errorMsg ("VPS setup failed: " ++ e)], none)
  | (server4, .ok _) =>
  match (stage5Docker env.dockerProbe env.dockerCmds).2 with
  | .error e =>
    ([.advance, .advance, .advance, .advance,
      .errorMsg ("Docker setup failed: " ++ e)], none)
  | .ok _ =>
  match (stage6Traefik env.traefikProbe env.traefikCmds).2 with
  | .error e =>
    ([.advance, .advance, .advance, .advance, .advance,
      .errorMsg ("Traefik setup failed: " ++ e)], none)
  | .ok _ =>
  match env.save (finalRegistry config server4) with
  | .error e =>
    ([.advance, .advance, .advance, .advance, .advance,
      .errorMsg ("Failed to write config: " ++ e)], none)
  | .ok _ =>
    ([.advance, .advance, .advance, .advance, .advance,
      .allDone "VPS Setup Done"], some (finalRegistry config server4))

/-- Embedding of the server-selection prologue of InitCmd.Run (lines 195 to
213): look the name up in the registry, fall back to a fresh record with
the given name, address and email, then overwrite address and email
unconditionally. The interactive overwrite confirmation (lines 204 to 210)
is omitted: its guard needs an existing server whose stored address
differs from the given one, which cannot fire on the inputs considered
here. -/
def initialServer (config : SidekickConfig) (name server certEmail : String) :
    SidekickServer :=
  let s :=
    match config.FindServer name with
    | .ok found => found
    | .error _ =>
      { Name := name, Address := server, CertEmail := certEmail,
        Distro := "", PlatformId := "", PublicKey := "", SecretKey := "" }
  { s with Address := server, CertEmail := certEmail }

/-- The fresh registry built by root.go initConfig when no config file
exists yet. -/
def emptyConfig : SidekickConfig :=
  { Version := "1", Servers := [], Contexts := [], CurrentContext := "" }

/-- Whether an effect writes a file. -/
def ConfigEffect.isWrite : ConfigEffect → Bool
  | .writeFile _ _ => true
  | _ => false

/-- A concrete populated server record used by witnesses. -/
def demoServer (name addr : String) : SidekickServer :=
  { Name := name, Address := addr, CertEmail := "ops@example.com",
    Distro := "ubuntu", PlatformId := "linux/amd64",
    PublicKey := "pk", SecretKey := "sk" }

/-- A concrete registry with two servers and one context, used by
witnesses. -/
def twoServerConfig : SidekickConfig :=
  { Version := "1"
    Servers := [demoServer "alpha" "10.0.0.1", demoServer "beta" "10.0.0.2"]
    Contexts := [{ Name := "alpha", Server := "alpha" }]
    CurrentContext := "alpha" }

/-- The server record InitCmd.Run builds for name box1 against an empty
registry. -/
def box1Server : SidekickServer :=
  initialServer emptyConfig "box1" "203.0.113.5" "a@b.com"

/-- An oracle environment in which every remote and local operation
succeeds; the probes report the sidekick user present but docker and
traefik absent, and keygen emits a well-formed three-line output. -/
def allOkEnv : InitEnv Unit :=
  { login := fun _ => .ok ()
    stage1 := .ok ()
    idProbe := .ok "1001"
    userStageRun := .ok ()
    distroProbe := "ubuntu"
    archProbe := "x86_64"
    setupCmds := .ok ()
    keygen := .ok "# created\n# public key: agepub\nAGE-SECRET-KEY-TEST"
    dockerProbe := .ok "0"
    dockerCmds := .ok ()
    traefikProbe := .ok "0"
    traefikCmds := .ok ()
    save := fun _ => .ok () }

/-- Like allOkEnv but every SSH login attempt is refused. -/
def loginFailEnv : InitEnv Unit :=
  { allOkEnv with login := fun _ => .error "connection refused" }

/-- The registry persisted by the fully successful concrete run of the
worker against an empty registry. -/
def savedBox1Config : SidekickConfig :=
  (initWorker allOkEnv emptyConfig box1Server).2.getD emptyConfig

theorem stage4_fst_Name (d a : String) (sc : Except String Unit)
    (kg : Except String String) (s : SidekickServer) :
    (stage4VPSSetup d a sc kg s).1.Name = s.Name := by
  unfold stage4VPSSetup
  cases sc <;> cases kg <;> dsimp only <;> split_ifs <;> rfl

theorem stage4_fst_Address (d a : String) (sc : Except String Unit)
    (kg : Except String String) (s : SidekickServer) :
    (stage4VPSSetup d a sc kg s).1.Address = s.Address := by
  unfold stage4VPSSetup
  cases sc <;> cases kg <;> dsimp only <;> split_ifs <;> rfl

theorem stage4_fst_CertEmail (d a : String) (sc : Except String Unit)
    (kg : Except String String) (s : SidekickServer) :
    (stage4VPSSetup d a sc kg s).1.CertEmail = s.CertEmail := by
  unfold stage4VPSSetup
  cases sc <;> cases kg <;> dsimp only <;> split_ifs <;> rfl

/-- C3: stage2Login tries root strictly before sidekick, returns the first
identity that authenticates together with its session, and reports the
connection error only after both identities failed. -/
theorem login_priority {Client : Type} (login : String → Except String Client) :
    (∀ c, login "root" = .ok c → stage2Login login = .ok (c, "root")) ∧
    (∀ e c, login "root" = .error e → login "sidekick" = .ok c →
      stage2Login login = .ok (c, "sidekick")) ∧
    (∀ e1 e2, login "root" = .error e1 → login "sidekick" = .error e2 →
      stage2Login login = .error "unable to establish SSH connection") := by
  refine ⟨?_, ?_, ?_⟩ <;> intros <;> simp_all [stage2Login, tryUsers]

/-- Witness for login_priority: with root refused and sidekick accepted,
the login stage returns the sidekick identity. -/
theorem login_priority_witness :
    stage2Login (fun u => if u == "sidekick" then Except.ok () else Except.error "denied")
      = Except.ok ((), "sidekick") :=
  (login_priority (fun u => if u == "sidekick" then Except.ok () else Except.error "denied")).2.1
    "denied" () rfl rfl

/-- C4: migrating a readable legacy single-host document yields a registry
with exactly one server named default, one context named default pointing
at server default, currentContext default and version 1; the command
prints this registry and writes no file. -/
theorem migrate_default_registry (path : String) (legacy : SidekickServer) :
    (migrateConfig legacy).Servers.length = 1 ∧
    (migrateConfig legacy).Servers.map SidekickServer.Name = ["default"] ∧
    (migrateConfig legacy).Contexts = [{ Name := "default", Server := "default" }] ∧
    (migrateConfig legacy).CurrentContext = "default" ∧
    (migrateConfig legacy).Version = "1" ∧
    ConfigEffect.printStdout (migrateConfig legacy) ∈ migrateCmdEffects path legacy ∧
    (migrateCmdEffects path legacy).all (fun eff => ! eff.isWrite) = true := by
  simp [migrateConfig, migrateCmdEffects, ConfigEffect.isWrite]

/-- C5: a host identity entering stage 4 with both keypair fields
non-empty leaves the stage with both fields untouched: the keygen branch
is guarded by emptiness of either field. -/
theorem stage4_preserves_existing_keypair
    (d a : String) (sc : Except String Unit) (kg : Except String String)
    (s : SidekickServer) (hpub : s.PublicKey ≠ "") (hsec : s.SecretKey ≠ "") :
    (stage4VPSSetup d a sc kg s).1.PublicKey = s.PublicKey ∧
    (stage4VPSSetup d a sc kg s).1.SecretKey = s.SecretKey := by
  unfold stage4VPSSetup
  cases sc <;> cases kg <;> dsimp only <;> split_ifs <;> simp_all

/-- Witness for stage4_preserves_existing_keypair on a concrete populated
server. -/
theorem stage4_preserves_existing_keypair_witness :
    (stage4VPSSetup "ubuntu" "x86_64" (.ok ()) (.error "keygen unavailable")
        (demoServer "alpha" "10.0.0.1")).1.PublicKey
      = (demoServer "alpha" "10.0.0.1").PublicKey ∧
    (stage4VPSSetup "ubuntu" "x86_64" (.ok ()) (.error "keygen unavailable")
        (demoServer "alpha" "10.0.0.1")).1.SecretKey
      = (demoServer "alpha" "10.0.0.1").SecretKey :=
  stage4_preserves_existing_keypair "ubuntu" "x86_64" (.ok ())
    (.error "keygen unavailable") (demoServer "alpha" "10.0.0.1")
    (by decide) (by decide)

/-- C10: stage 4 assigns PlatformId exactly for the probe outputs x86_64
(to linux/amd64) and aarch64 (to linux/arm64); any other probe output
leaves PlatformId at its prior value. -/
theorem stage4_platform_assignment
    (d a : String) (sc : Except String Unit) (kg : Except String String)
    (s : SidekickServer) :
    (a = "x86_64" → (stage4VPSSetup d a sc kg s).1.PlatformId = "linux/amd64") ∧
    (a = "aarch64" → (stage4VPSSetup d a sc kg s).1.PlatformId = "linux/arm64") ∧
    (a ≠ "x86_64" → a ≠ "aarch64" →
      (stage4VPSSetup d a sc kg s).1.PlatformId = s.PlatformId) := by
  unfold stage4VPSSetup
  cases sc <;> cases kg <;> dsimp only <;> split_ifs <;> simp_all

/-- Witness for stage4_platform_assignment: the probe output riscv64
leaves the prior PlatformId in place. -/
theorem stage4_platform_assignment_witness :
    (stage4VPSSetup "ubuntu" "riscv64" (.ok ()) (.error "unused")
        (demoServer "alpha" "10.0.0.1")).1.PlatformId
      = (demoServer "alpha" "10.0.0.1").PlatformId :=
  (stage4_platform_assignment "ubuntu" "riscv64" (.ok ()) (.error "unused")
      (demoServer "alpha" "10.0.0.1")).2.2 (by decide) (by decide)

/-- C9: when an idempotency probe reports the truthy sentinel (output 1
for the docker and traefik probes, a non-empty user id for the user
existence check), the stage runs none of its mutating commands and
returns success, whatever the batch outcome oracle would have been. -/
theorem probe_short_circuit (r : Except String Unit) (out u : String)
    (hout : out ≠ "") :
    stage5Docker (.ok "1") r = (false, .ok ()) ∧
    stage6Traefik (.ok "1") r = (false, .ok ()) ∧
    stage3UserSetup (.ok out) r u = (false, .ok ()) := by
  refine ⟨rfl, rfl, ?_⟩
  unfold stage3UserSetup
  simp [hout]

/-- Witness for probe_short_circuit: a failing command batch is never
reached when the probe reports the effect present. -/
theorem probe_short_circuit_witness :
    stage5Docker (.ok "1") (.error "apt broken") = (false, .ok ()) ∧
    stage6Traefik (.ok "1") (.error "apt broken") = (false, .ok ()) ∧
    stage3UserSetup (.ok "1001") (.error "apt broken") "root" = (false, .ok ()) :=
  probe_short_circuit (.error "apt broken") "1001" "root" (by decide)

/-- C6 counterexample: when the docker probe command fails to execute, the
stage does not raise an error carrying the cause; it proceeds to run the
mutating docker commands and returns their (successful) outcome. -/
theorem stage5_probe_error_runs_commands :
    (stage5Docker (.error "ssh channel failure") (.ok ())).1 = true ∧
    (stage5Docker (.error "ssh channel failure") (.ok ())).2 = .ok () := by
  exact ⟨rfl, rfl⟩

/-- C6 amended: a probe execution failure is treated as the probed effect
being absent: the stage executes its mutating command batch and returns
that batch result, so the stage (and hence the workflow) fails only when
the mutating commands themselves fail. -/
theorem probe_failure_treated_as_absent (e : String) (r : Except String Unit) :
    stage3UserSetup (.error e) r "root" = (true, r) ∧
    stage5Docker (.error e) r = (true, r) ∧
    stage6Traefik (.error e) r = (true, r) := by
  refine ⟨?_, ?_, ?_⟩ <;> cases r <;> rfl

/-- C8: the config use subcommand exits with status 0 even when saving the
updated registry fails (the Go code discards the error returned by Save),
evaluated here at a concrete unwritable-registry oracle. -/
theorem useContext_exit_zero_on_save_failure :
    (useContextCmd twoServerConfig "beta"
        (fun _ => .error "permission denied")).1 = 0 ∧
    (useContextCmd twoServerConfig "beta"
        (fun _ => .error "permission denied")).2.CurrentContext = "beta" := by
  exact ⟨rfl, rfl⟩

theorem findIdx?_first {α : Type} (p : α → Bool) (xs : List α) :
    ∀ (i s : Nat) (a : α), xs[i]? = some a → p a = true →
      (∀ j b, j < i → xs[j]? = some b → p b = false) →
      List.findIdx? p xs s = some (s + i) := by
  induction xs with
  | nil => intro i s a h _ _; simp at h
  | cons x xs ih =>
    intro i s a h hpa hmin
    cases i with
    | zero =>
      simp at h
      subst h
      simp [List.findIdx?_cons, hpa]
    | succ i =>
      have hx : p x = false := hmin 0 x (Nat.succ_pos i) (by simp)
      rw [List.findIdx?_cons, hx]
      simp only [Bool.false_eq_true, if_false]
      have hrec := ih i (s + 1) a (by simpa using h) hpa
        (fun j b hj hb => hmin (j + 1) b (by omega) (by simpa using hb))
      rw [hrec]
      congr 1
      omega

theorem AddOrReplaceServer_eq_append (c : SidekickConfig) (s : SidekickServer)
    (h : List.findIdx? (fun elem => elem.Name == s.Name) c.Servers = none) :
    (c.AddOrReplaceServer s).Servers = c.Servers ++ [s] := by
  unfold SidekickConfig.AddOrReplaceServer
  rw [h]

theorem AddOrReplaceServer_eq_set (c : SidekickConfig) (s : SidekickServer)
    (i : Nat)
    (h : List.findIdx? (fun elem => elem.Name == s.Name) c.Servers = some i) :
    (c.AddOrReplaceServer s).Servers = c.Servers.set i s := by
  unfold SidekickConfig.AddOrReplaceServer
  rw [h]

theorem AddOrReplaceContext_eq_append (c : SidekickConfig)
    (ctx : SidekickContext)
    (h : List.findIdx? (fun elem => elem.Name == ctx.Name) c.Contexts = none) :
    (c.AddOrReplaceContext ctx).Contexts = c.Contexts ++ [ctx] := by
  unfold SidekickConfig.AddOrReplaceContext
  rw [h]

theorem AddOrReplaceContext_eq_set (c : SidekickConfig)
    (ctx : SidekickContext) (i : Nat)
    (h : List.findIdx? (fun elem => elem.Name == ctx.Name) c.Contexts = some i) :
    (c.AddOrReplaceContext ctx).Contexts = c.Contexts.set i ctx := by
  unfold SidekickConfig.AddOrReplaceContext
  rw [h]

/-- C2: upsert semantics of the two registry collections. If no entry
shares the new name, the value is appended at the end (so the length grows
by exactly one and existing entries keep their positions); if some entry
shares the name, the first such entry is overwritten at its index, the
length is unchanged, and every other position is untouched. -/
theorem addOrReplace_upsert (c : SidekickConfig) (s : SidekickServer)
    (ctx : SidekickContext) :
    ((∀ e ∈ c.Servers, e.Name ≠ s.Name) →
      (c.AddOrReplaceServer s).Servers = c.Servers ++ [s]) ∧
    (∀ (i : Nat) (a : SidekickServer), c.Servers[i]? = some a → a.Name = s.Name →
      (∀ (j : Nat) (b : SidekickServer),
        j < i → c.Servers[j]? = some b → b.Name ≠ s.Name) →
      (c.AddOrReplaceServer s).Servers.length = c.Servers.length ∧
      (c.AddOrReplaceServer s).Servers[i]? = some s ∧
      (∀ j, j ≠ i →
        (c.AddOrReplaceServer s).Servers[j]? = c.Servers[j]?)) ∧
    ((∀ e ∈ c.Contexts, e.Name ≠ ctx.Name) →
      (c.AddOrReplaceContext ctx).Contexts = c.Contexts ++ [ctx]) ∧
    (∀ (i : Nat) (a : SidekickContext), c.Contexts[i]? = some a → a.Name = ctx.Name →
      (∀ (j : Nat) (b : SidekickContext),
        j < i → c.Contexts[j]? = some b → b.Name ≠ ctx.Name) →
      (c.AddOrReplaceContext ctx).Contexts.length = c.Contexts.length ∧
      (c.AddOrReplaceContext ctx).Contexts[i]? = some ctx ∧
      (∀ j, j ≠ i →
        (c.AddOrReplaceContext ctx).Contexts[j]? = c.Contexts[j]?)) := by
  refine ⟨?_, ?_, ?_, ?_⟩
  · intro h
    refine AddOrReplaceServer_eq_append c s ?_
    rw [List.findIdx?_eq_none_iff]
    intro e he
    simpa using h e he
  · intro i a ha hname hmin
    have hi : i < c.Servers.length := by
      by_contra hc
      push_neg at hc
      rw [List.getElem?_eq_none hc] at ha
      cases ha
    have hidx : List.findIdx? (fun elem => elem.Name == s.Name) c.Servers
        = some i := by
      have := findIdx?_first (fun elem => elem.Name == s.Name) c.Servers i 0 a
        ha (by simpa using hname)
        (fun j b hj hb => by simpa using hmin j b hj hb)
      simpa using this
    rw [AddOrReplaceServer_eq_set c s i hidx]
    exact ⟨List.length_set _ _ _, List.getElem?_set_self hi,
      fun j hj => List.getElem?_set_ne (Ne.symm hj)⟩
  · intro h
    refine AddOrReplaceContext_eq_append c ctx ?_
    rw [List.findIdx?_eq_none_iff]
    intro e he
    simpa using h e he
  · intro i a ha hname hmin
    have hi : i < c.Contexts.length := by
      by_contra hc
      push_neg at hc
      rw [List.getElem?_eq_none hc] at ha
      cases ha
    have hidx : List.findIdx? (fun elem => elem.Name == ctx.Name) c.Contexts
        = some i := by
      have := findIdx?_first (fun elem => elem.Name == ctx.Name) c.Contexts i 0 a
        ha (by simpa using hname)
        (fun j b hj hb => by simpa using hmin j b hj hb)
      simpa using this
    rw [AddOrReplaceContext_eq_set c ctx i hidx]
    exact ⟨List.length_set _ _ _, List.getElem?_set_self hi,
      fun j hj => List.getElem?_set_ne (Ne.symm hj)⟩

/-- Witness for addOrReplace_upsert: replacing server beta in a two-server
registry keeps the length at two and stores the new record at index 1. -/
theorem addOrReplace_upsert_witness :
    (twoServerConfig.AddOrReplaceServer (demoServer "beta" "10.9.9.9")).Servers.length
      = twoServerConfig.Servers.length ∧
    (twoServerConfig.AddOrReplaceServer (demoServer "beta" "10.9.9.9")).Servers[1]?
      = some (demoServer "beta" "10.9.9.9") := by
  have h := (addOrReplace_upsert twoServerConfig (demoServer "beta" "10.9.9.9")
      { Name := "gamma", Server := "beta" }).2.1 1 (demoServer "beta" "10.0.0.2")
    (by decide) (by decide)
    (by
      intro j b hj hb
      have hj0 : j = 0 := by omega
      subst hj0
      simp [twoServerConfig] at hb
      subst hb
      decide)
  exact ⟨h.1, h.2.1⟩

/-- C1 counterexample: on a fully successful concrete run through all six
stages the worker emits five advance events, not six: no advance event
follows the sixth (traefik) stage, only the done event does. -/
theorem initWorker_five_advances_only :
    (initWorker allOkEnv emptyConfig box1Server).1 =
      [ProgressEvent.advance, ProgressEvent.advance, ProgressEvent.advance,
        ProgressEvent.advance, ProgressEvent.advance,
        ProgressEvent.allDone "VPS Setup Done"] ∧
    (initWorker allOkEnv emptyConfig box1Server).1.count ProgressEvent.advance ≠ 6 := by
  exact ⟨rfl, by decide⟩

/-- C1 amended: every run of the init worker produces either five advance
events (one after each of the first five stages; none after the sixth)
followed by exactly one done event (exactly when a registry was saved), or
at most five advance events followed by exactly one error event with no
events after it. -/
theorem initWorker_event_stream {Client : Type} (env : InitEnv Client)
    (config : SidekickConfig) (server : SidekickServer) :
    ((initWorker env config server).2.isSome = true →
      ∃ m, (initWorker env config server).1 =
        List.replicate 5 ProgressEvent.advance ++ [ProgressEvent.allDone m]) ∧
    ((initWorker env config server).2 = none →
      ∃ (k : Nat) (m : String), k ≤ 5 ∧ (initWorker env config server).1 =
        List.replicate k ProgressEvent.advance ++ [ProgressEvent.errorMsg m]) := by
  unfold initWorker
  rcases h1 : env.stage1 with e1 | u1 <;> dsimp only
  · exact ⟨fun h => Bool.noConfusion h,
      fun _ => ⟨0, "Local requirements check failed: " ++ e1, by omega, rfl⟩⟩
  rcases h2 : stage2Login env.login with e2 | p2 <;> dsimp only
  · exact ⟨fun h => Bool.noConfusion h,
      fun _ => ⟨1, "Login failed: " ++ e2, by omega, rfl⟩⟩
  obtain ⟨cl2, user2⟩ := p2
  dsimp only
  rcases h3 : (stage3UserSetup env.idProbe env.userStageRun user2).2 with e3 | u3 <;> dsimp only
  · exact ⟨fun h => Bool.noConfusion h,
      fun _ => ⟨2, "User setup failed: " ++ e3, by omega, rfl⟩⟩
  rcases h3b : env.login "sidekick" with e3b | cl3 <;> dsimp only
  · exact ⟨fun h => Bool.noConfusion h,
      fun _ => ⟨2, "Failed to login as sidekick: " ++ e3b, by omega, rfl⟩⟩
  rcases h4 : stage4VPSSetup env.distroProbe env.archProbe env.setupCmds env.keygen server
    with ⟨server4, r4⟩
  rcases r4 with e4 | u4 <;> dsimp only
  · exact ⟨fun h => Bool.noConfusion h,
      fun _ => ⟨3, "VPS setup failed: " ++ e4, by omega, rfl⟩⟩
  rcases h5 : (stage5Docker env.dockerProbe env.dockerCmds).2 with e5 | u5 <;> dsimp only
  · exact ⟨fun h => Bool.noConfusion h,
      fun _ => ⟨4, "Docker setup failed: " ++ e5, by omega, rfl⟩⟩
  rcases h6 : (stage6Traefik env.traefikProbe env.traefikCmds).2 with e6 | u6 <;> dsimp only
  · exact ⟨fun h => Bool.noConfusion h,
      fun _ => ⟨5, "Traefik setup failed: " ++ e6, by omega, rfl⟩⟩
  rcases h8 : env.save (finalRegistry config server4) with e8 | u8 <;> dsimp only
  · exact ⟨fun h => Bool.noConfusion h,
      fun _ => ⟨5, "Failed to write config: " ++ e8, by omega, rfl⟩⟩
  · exact ⟨fun _ => ⟨"VPS Setup Done", rfl⟩, fun h => Option.noConfusion h⟩

/-- Witness for initWorker_event_stream: a run whose SSH logins all fail
emits one advance then a single terminal error event. -/
theorem initWorker_event_stream_witness :
    ∃ (k : Nat) (m : String), k ≤ 5 ∧
      (initWorker loginFailEnv emptyConfig box1Server).1 =
        List.replicate k ProgressEvent.advance ++ [ProgressEvent.errorMsg m] :=
  (initWorker_event_stream loginFailEnv emptyConfig box1Server).2 rfl

/-- C7: any successful init worker run that starts from the empty registry
with name box1, address 203.0.113.5 and email a@b.com persists a registry
holding exactly one server named box1 with that address and email, exactly
one context box1 pointing at server box1, and current context box1. -/
theorem init_workflow_registry {Client : Type} (env : InitEnv Client)
    (events : List ProgressEvent) (cfg : SidekickConfig)
    (h : initWorker env emptyConfig box1Server = (events, some cfg)) :
    (∃ s, cfg.Servers = [s] ∧ s.Name = "box1" ∧ s.Address = "203.0.113.5" ∧
      s.CertEmail = "a@b.com") ∧
    cfg.Contexts = [{ Name := "box1", Server := "box1" }] ∧
    cfg.CurrentContext = "box1" := by
  unfold initWorker at h
  rcases h1 : env.stage1 with e1 | u1 <;> rw [h1] at h <;> dsimp only at h
  · simp at h
  rcases h2 : stage2Login env.login with e2 | p2 <;> rw [h2] at h <;> dsimp only at h
  · simp at h
  obtain ⟨cl2, user2⟩ := p2
  dsimp only at h
  rcases h3 : (stage3UserSetup env.idProbe env.userStageRun user2).2 with e3 | u3 <;>
    rw [h3] at h <;> dsimp only at h
  · simp at h
  rcases h3b : env.login "sidekick" with e3b | cl3 <;> rw [h3b] at h <;> dsimp only at h
  · simp at h
  rcases h4 : stage4VPSSetup env.distroProbe env.archProbe env.setupCmds env.keygen box1Server
    with ⟨server4, r4⟩
  rw [h4] at h
  rcases r4 with e4 | u4 <;> dsimp only at h
  · simp at h
  rcases h5 : (stage5Docker env.dockerProbe env.dockerCmds).2 with e5 | u5 <;>
    rw [h5] at h <;> dsimp only at h
  · simp at h
  rcases h6 : (stage6Traefik env.traefikProbe env.traefikCmds).2 with e6 | u6 <;>
    rw [h6] at h <;> dsimp only at h
  · simp at h
  rcases h8 : env.save (finalRegistry emptyConfig server4) with e8 | u8 <;>
    rw [h8] at h <;> dsimp only at h
  · simp at h
  have hcfg : finalRegistry emptyConfig server4 = cfg := by
    have := congrArg Prod.snd h
    simpa using this
  subst hcfg
  have hname : server4.Name = "box1" := by
    have hfst := stage4_fst_Name env.distroProbe env.archProbe env.setupCmds env.keygen box1Server
    rw [h4] at hfst
    exact hfst
  have haddr : server4.Address = "203.0.113.5" := by
    have hfst := stage4_fst_Address env.distroProbe env.archProbe env.setupCmds env.keygen box1Server
    rw [h4] at hfst
    exact hfst
  have hmail : server4.CertEmail = "a@b.com" := by
    have hfst := stage4_fst_CertEmail env.distroProbe env.archProbe env.setupCmds env.keygen box1Server
    rw [h4] at hfst
    exact hfst
  refine ⟨⟨server4, ?_, hname, haddr, hmail⟩, ?_, ?_⟩
  · simp [finalRegistry, emptyConfig, SidekickConfig.AddOrReplaceServer,
      SidekickConfig.AddOrReplaceContext]
  · simp [finalRegistry, emptyConfig, SidekickConfig.AddOrReplaceServer,
      SidekickConfig.AddOrReplaceContext, hname]
  · simp [finalRegistry, emptyConfig, SidekickConfig.AddOrReplaceServer,
      SidekickConfig.AddOrReplaceContext, hname]

/-- Witness for init_workflow_registry at the all-success concrete
environment. -/
theorem init_workflow_registry_witness :
    (∃ s, savedBox1Config.Servers = [s] ∧ s.Name = "box1" ∧
      s.Address = "203.0.113.5" ∧ s.CertEmail = "a@b.com") ∧
    savedBox1Config.Contexts = [{ Name := "box1", Server := "box1" }] ∧
    savedBox1Config.CurrentContext = "box1" :=
  init_workflow_registry allOkEnv
    [ProgressEvent.advance, ProgressEvent.advance, ProgressEvent.advance,
      ProgressEvent.advance, ProgressEvent.advance,
      ProgressEvent.allDone "VPS Setup Done"]
    savedBox1Config rfl
